import Mathlib

/-!
Verification of `anaglyph.py` (red–cyan anaglyph converter).

The program is shallowly embedded: images are rectangular pixel grids
given as total functions from coordinates to RGB pixels; the Pillow
primitives used by the source (`ImageChops.offset`, `Image.split`,
`Image.merge`) are embedded by their documented pixel-level semantics;
file-system effects (`Image.open`, `Image.save`, `os.listdir`,
`os.path.isdir`) are abstracted into explicit environment records, and
the functions of the source are translated as pure functions over those
records that also return their observable trace (saved files, printed
messages, converter invocations).
-/

/-- One RGB pixel; channels are 8-bit in the source, the channel values
play no role in the shift claims so they are plain naturals. -/
structure Pixel where
  r : Nat
  g : Nat
  b : Nat
deriving DecidableEq, Repr

/-- An in-memory image: a width, a height, and a total pixel function
(only positions with `x < width` and `y < height` are meaningful). -/
structure Image where
  width : Nat
  height : Nat
  pix : Nat → Nat → Pixel

/-- Modelled from Pillow's `ImageChops.offset(image, xoffset, yoffset)`:
returns a copy of the image where data has been offset by the given
distances, wrapping around the edges, so the output pixel at `(x, y)` is
the input pixel at `((x - xoffset) mod width, (y - yoffset) mod height)`.
`Int.emod` agrees with Python `%` on a positive modulus. -/
def offsetImage (img : Image) (xoffset yoffset : Int) : Image where
  width := img.width
  height := img.height
  pix := fun x y =>
    img.pix ((((x : Int) - xoffset) % (img.width : Int)).toNat)
            ((((y : Int) - yoffset) % (img.height : Int)).toNat)

/-- The pure core of `create_anaglyph` (src/anaglyph.py lines 45-55):
shift the RGB image left by `offset` with wrap-around
(`ImageChops.offset(img, -offset, 0)`), take the red channel of the
shifted image and the green and blue channels of the original, and merge
the three planes into the output image. -/
def create_anaglyph_image (img : Image) (offset : Int) : Image :=
  let left_img := offsetImage img (-offset) 0
  { width := img.width
    height := img.height
    pix := fun x y =>
      { r := (left_img.pix x y).r
        g := (img.pix x y).g
        b := (img.pix x y).b } }

/-- A concrete 3×2 test image whose channels determine the coordinates,
used by the witness theorems. -/
def testImg : Image where
  width := 3
  height := 2
  pix := fun x y => { r := 10 * x + y, g := 100 + 10 * x + y, b := 200 + 10 * x + y }

/-- The file system seen by the converter. `load` embeds
`Image.open(path).convert("RGB")`: on success it yields the RGB-normalized
image, on failure the exception message; `saveErr` embeds
`Image.save(path)`: `none` means the save succeeds, `some e` that it
raises with message `e`. -/
structure FS where
  load : String → Except String Image
  saveErr : String → Option String

/-- The observable outcome of one `create_anaglyph` call: the returned
boolean, the file written (at most one), and the printed messages. -/
structure ConvResult where
  ok : Bool
  saved : Option (String × Image)
  msgs : List String

/-- Translation of `create_anaglyph(input_path, output_path, offset)`
(src/anaglyph.py lines 30-63): open and normalize the input (on failure
print the error with path and cause and return `False`), build the
anaglyph, save it (on failure print the error with path and cause and
return `False`), on success print the output path and return `True`.
Python's catch of the exception is embedded by returning the failure
outcome instead of propagating it. -/
def create_anaglyph (fs : FS) (input_path output_path : String) (offset : Int) :
    ConvResult :=
  match fs.load input_path with
  | .error e =>
      { ok := false, saved := none
        msgs := ["Error opening " ++ input_path ++ ": " ++ e] }
  | .ok img =>
      let anaglyph := create_anaglyph_image img offset
      match fs.saveErr output_path with
      | none =>
          { ok := true, saved := some (output_path, anaglyph)
            msgs := ["Anaglyph saved as " ++ output_path] }
      | some e =>
          { ok := false, saved := none
            msgs := ["Error saving " ++ output_path ++ ": " ++ e] }

/-- A file system on which every load yields `testImg` and every save
succeeds, used by the witness theorems. -/
def okFS : FS where
  load := fun _ => .ok testImg
  saveErr := fun _ => none

/-- A file system on which every load fails (missing file), used by the
witness and counterexample theorems. -/
def failFS : FS where
  load := fun _ => .error "No such file or directory"
  saveErr := fun _ => none

/-- Index of the last `.` in a list of characters, if any. -/
def lastDotIdx : List Char → Option Nat
  | [] => none
  | c :: cs =>
    match lastDotIdx cs with
    | some i => some (i + 1)
    | none => if c = '.' then some 0 else none

/-- Modelled from CPython's `os.path.splitext` for a bare entry name (no
path separator, as yielded by `os.listdir`): split at the last dot
provided some character before it is not a dot (so leading dots, as in
`.bashrc`, start no extension). -/
def splitext (s : String) : String × String :=
  match lastDotIdx s.data with
  | none => (s, "")
  | some d =>
    if (s.data.take d).any (fun c => c ≠ '.') then
      (⟨s.data.take d⟩, ⟨s.data.drop d⟩)
    else
      (s, "")

/-- Modelled from `os.path.join(dir, name)` for a directory path without
trailing separator and a relative entry name. -/
def path_join (d n : String) : String := d ++ "/" ++ n

/-- Modelled from Python's `str.lower` on the ASCII file names the batch
driver compares: lower-case every character. -/
def lower (s : String) : String := ⟨s.data.map Char.toLower⟩

/-- The allowed image file extensions of `process_directory`
(src/anaglyph.py line 78). -/
def allowed_ext : List String := [".jpg", ".jpeg", ".png", ".bmp", ".tiff", ".tif"]

/-- One entry of the input directory as yielded by `os.listdir`: its bare
name and whether it is a subdirectory. -/
structure DirEntry where
  name : String
  isDir : Bool
deriving DecidableEq, Repr

/-- One invocation of the Converter: the input path, output path and
offset passed to `create_anaglyph`. -/
structure ConvCall where
  input : String
  output : String
  offset : Int
deriving DecidableEq, Repr

/-- What one loop iteration of `process_directory` does to an entry:
either invoke the Converter (recording the call and its boolean result)
or print a skip notice. -/
inductive BatchEvent where
  | call (c : ConvCall) (ok : Bool)
  | skip (msg : String)
deriving DecidableEq, Repr

/-- Translation of the loop body of `process_directory`
(src/anaglyph.py lines 80-89): lower-case the entry name, split off its
extension, and if the lower-cased extension is allowed invoke
`create_anaglyph` on the joined input path and the output name
`base ++ "_anaglyph" ++ ext_original` built from the original-case split;
otherwise print the skip notice. The entry's kind (file or subdirectory)
is never consulted. -/
def process_entry (fs : FS) (input_dir output_dir : String) (offset : Int)
    (e : DirEntry) : BatchEvent :=
  let file_lower := lower e.name
  let extLower := (splitext file_lower).2
  if extLower ∈ allowed_ext then
    let input_file := path_join input_dir e.name
    let base := (splitext e.name).1
    let ext_original := (splitext e.name).2
    let output_file := path_join output_dir (base ++ "_anaglyph" ++ ext_original)
    .call { input := input_file, output := output_file, offset := offset }
      (create_anaglyph fs input_file output_file offset).ok
  else
    .skip ("Skipping non-image file: " ++ e.name)

/-- Translation of `process_directory(input_dir, output_dir, offset)`
(src/anaglyph.py lines 65-89): sweep every entry of the listing in order,
performing `process_entry` on each; the Python function returns `None`,
so its whole observable behavior is this event trace. The `os.makedirs`
call for a missing output directory is not modelled (the entry point only
reaches `process_directory` with an existing directory). -/
def process_directory (fs : FS) (input_dir output_dir : String) (offset : Int)
    (entries : List DirEntry) : List BatchEvent :=
  entries.map (process_entry fs input_dir output_dir offset)

/-- The Converter invocations recorded in an event trace, in order. -/
def batch_calls (evs : List BatchEvent) : List ConvCall :=
  evs.filterMap fun ev =>
    match ev with
    | .call c _ => some c
    | .skip _ => none

/-- Modelled from CPython's `int` constructor applied to a string:
optional surrounding ASCII whitespace, one optional sign, then a
non-empty run of decimal digits (underscore digit separators are not
modelled). `none` embeds the raised `ValueError`. -/
def python_int (s : String) : Option Int :=
  let isSp : Char → Bool := fun c => c = ' ' || c = '\t' || c = '\n' || c = '\r'
  let t := ((s.data.dropWhile isSp).reverse.dropWhile isSp).reverse
  let digitsVal : List Char → Int := fun ds =>
    ((ds.foldl (fun a c => 10 * a + (c.toNat - '0'.toNat)) 0 : Nat) : Int)
  match t with
  | '-' :: ds => if !ds.isEmpty && ds.all Char.isDigit then some (-(digitsVal ds)) else none
  | '+' :: ds => if !ds.isEmpty && ds.all Char.isDigit then some (digitsVal ds) else none
  | ds => if !ds.isEmpty && ds.all Char.isDigit then some (digitsVal ds) else none

/-- The environment of the entry point: the file system, which paths are
directories (`os.path.isdir`), and the listing of each directory
(`os.listdir`). -/
structure Env where
  fs : FS
  isDir : String → Bool
  listdir : String → List DirEntry

/-- Translation of the `__main__` block (src/anaglyph.py lines 91-107):
with fewer than two positional arguments print usage and exit 1; parse
the optional third argument with `int` (an invalid literal raises an
unhandled `ValueError`, embedded as exit code `none`, before any image
I/O and before the directory/file dispatch); if the input path is a
directory, exit 1 unless the output path is also a directory and
otherwise run `process_directory`; else run `create_anaglyph`; a
completed run falls off the end of the script with exit code 0, the
converter results being ignored. Returns the exit code of a completed
run and the event trace of the conversions performed. -/
def main_run (env : Env) (argv : List String) : Option Nat × List BatchEvent :=
  if argv.length < 3 then
    (some 1, [])
  else
    let input_path := argv.getD 1 ""
    let output_path := argv.getD 2 ""
    match (if argv.length > 3 then python_int (argv.getD 3 "") else some 10) with
    | none => (none, [])
    | some offset_val =>
      if env.isDir input_path then
        if !env.isDir output_path then
          (some 1, [])
        else
          (some 0, process_directory env.fs input_path output_path offset_val
                     (env.listdir input_path))
      else
        (some 0, [.call { input := input_path, output := output_path, offset := offset_val }
                    (create_anaglyph env.fs input_path output_path offset_val).ok])

/-- A concrete environment for the witness theorems: nothing is a
directory, every load fails. -/
def fileEnv : Env where
  fs := failFS
  isDir := fun _ => false
  listdir := fun _ => []

/- Helper lemmas -/

/-- At a valid position, the image shifted left by `k` (via
`ImageChops.offset` with x-offset `-k` and y-offset `0`) shows the input
pixel of the same row at column `(x + k) mod width`. -/
theorem offsetImage_neg_pix (img : Image) (k : Int) (x y : Nat)
    (hy : y < img.height) :
    (offsetImage img (-k) 0).pix x y
      = img.pix (((x : Int) + k) % (img.width : Int)).toNat y := by
  have hH : (y : Int) < (img.height : Int) := by exact_mod_cast hy
  simp only [offsetImage, sub_neg_eq_add, sub_zero]
  rw [Int.emod_eq_of_lt (Int.natCast_nonneg y) hH, Int.toNat_natCast]

/-- Adding `k` and adding `k mod W` agree modulo `W`. -/
theorem add_emod_emod_right (x k W : Int) : (x + k) % W = (x + k % W) % W := by
  conv_lhs => rw [← Int.emod_add_ediv k W]
  rw [← add_assoc, Int.add_mul_emod_self_left]

/-- A valid column index is its own representative modulo the width. -/
theorem natCast_emod_self_toNat (x W : Nat) (hx : x < W) :
    (((x : Int)) % (W : Int)).toNat = x := by
  have hxW : (x : Int) < (W : Int) := by exact_mod_cast hx
  rw [Int.emod_eq_of_lt (Int.natCast_nonneg x) hxW, Int.toNat_natCast]

/- Claim theorems -/

/-- C1: for an image of positive width `W`, at every valid position the
red channel of the anaglyph with offset `k` is the input's red channel
of the same row at column `(x + k) mod W` (circular left shift by `k`,
zero vertical offset), and it coincides with the red channel of the
anaglyph with offset `k mod W`. -/
theorem c1_red_channel_circular_shift (img : Image) (k : Int) (x y : Nat)
    (hW : 0 < img.width) (hx : x < img.width) (hy : y < img.height) :
    ((create_anaglyph_image img k).pix x y).r
        = (img.pix (((x : Int) + k) % (img.width : Int)).toNat y).r
    ∧ ((create_anaglyph_image img k).pix x y).r
        = ((create_anaglyph_image img (k % (img.width : Int))).pix x y).r := by
  constructor
  · simp only [create_anaglyph_image, offsetImage_neg_pix img k x y hy]
  · simp only [create_anaglyph_image, offsetImage_neg_pix img _ x y hy]
    rw [add_emod_emod_right]

/-- Witness for C1 at the 3×2 test image, offset `-4`, position `(1, 0)`. -/
theorem c1_witness :
    (0 < testImg.width ∧ 1 < testImg.width ∧ 0 < testImg.height)
    ∧ (((create_anaglyph_image testImg (-4)).pix 1 0).r
          = (testImg.pix ((((1 : Nat) : Int) + (-4)) % ((testImg.width : Nat) : Int)).toNat 0).r
        ∧ ((create_anaglyph_image testImg (-4)).pix 1 0).r
          = ((create_anaglyph_image testImg ((-4) % (testImg.width : Int))).pix 1 0).r) :=
  ⟨by decide,
   c1_red_channel_circular_shift testImg (-4) 1 0 (by decide) (by decide) (by decide)⟩

/-- C2: for every image, offset and pixel position, the green and blue
channels of the anaglyph equal the green and blue channels of the input;
only the red channel may differ. -/
theorem c2_green_blue_preserved (img : Image) (offset : Int) (x y : Nat) :
    ((create_anaglyph_image img offset).pix x y).g = (img.pix x y).g
    ∧ ((create_anaglyph_image img offset).pix x y).b = (img.pix x y).b :=
  ⟨rfl, rfl⟩

/-- C4: with offset `0` the anaglyph is pixel-for-pixel the input image:
same dimensions and, at every valid position, the very same pixel. -/
theorem c4_offset_zero_identity (img : Image) (x y : Nat)
    (hx : x < img.width) (hy : y < img.height) :
    (create_anaglyph_image img 0).pix x y = img.pix x y
    ∧ (create_anaglyph_image img 0).width = img.width
    ∧ (create_anaglyph_image img 0).height = img.height := by
  refine ⟨?_, rfl, rfl⟩
  have hpix : (offsetImage img (-0) 0).pix x y = img.pix x y := by
    rw [offsetImage_neg_pix img 0 x y hy, add_zero, natCast_emod_self_toNat x _ hx]
  simp only [create_anaglyph_image, hpix]

/-- C3: whatever image the converter writes has exactly the width and
height of the loaded input image, for every file system, path pair and
integer offset. -/
theorem c3_dimensions_preserved (fs : FS) (input_path output_path : String)
    (offset : Int) (img : Image) (hload : fs.load input_path = .ok img)
    (p : String) (i : Image)
    (hsaved : (create_anaglyph fs input_path output_path offset).saved = some (p, i)) :
    i.width = img.width ∧ i.height = img.height := by
  unfold create_anaglyph at hsaved
  rw [hload] at hsaved
  rcases hsave : fs.saveErr output_path with _ | e
  · rw [hsave] at hsaved
    simp only [Option.some.injEq, Prod.mk.injEq] at hsaved
    rw [← hsaved.2]
    exact ⟨rfl, rfl⟩
  · rw [hsave] at hsaved
    simp at hsaved

/-- Witness for C3 on `okFS`, where the save happens. -/
theorem c3_witness :
    (okFS.load "in.png" = .ok testImg
      ∧ (create_anaglyph okFS "in.png" "out.png" 7).saved
          = some ("out.png", create_anaglyph_image testImg 7))
    ∧ ((create_anaglyph_image testImg 7).width = testImg.width
        ∧ (create_anaglyph_image testImg 7).height = testImg.height) :=
  ⟨⟨rfl, rfl⟩,
   c3_dimensions_preserved okFS "in.png" "out.png" 7 testImg rfl
     "out.png" (create_anaglyph_image testImg 7) rfl⟩

/-- C5: when the load fails with cause `e`, `create_anaglyph` returns
`False` without raising, writes nothing (the save step is never
reached), and its only message names the input path and the cause. -/
theorem c5_load_failure (fs : FS) (input_path output_path : String)
    (offset : Int) (e : String) (hload : fs.load input_path = .error e) :
    (create_anaglyph fs input_path output_path offset).ok = false
    ∧ (create_anaglyph fs input_path output_path offset).saved = none
    ∧ (create_anaglyph fs input_path output_path offset).msgs
        = ["Error opening " ++ input_path ++ ": " ++ e] := by
  unfold create_anaglyph
  rw [hload]
  exact ⟨rfl, rfl, rfl⟩

/-- Witness for C5 on `failFS`, where every load fails. -/
theorem c5_witness :
    (failFS.load "missing.jpg" = .error "No such file or directory")
    ∧ ((create_anaglyph failFS "missing.jpg" "out.jpg" 10).ok = false
        ∧ (create_anaglyph failFS "missing.jpg" "out.jpg" 10).saved = none
        ∧ (create_anaglyph failFS "missing.jpg" "out.jpg" 10).msgs
            = ["Error opening missing.jpg: No such file or directory"]) :=
  ⟨rfl, c5_load_failure failFS "missing.jpg" "out.jpg" 10
          "No such file or directory" rfl⟩

/-- Witness for C4 at the 3×2 test image, position `(2, 1)`. -/
theorem c4_witness :
    (2 < testImg.width ∧ 1 < testImg.height)
    ∧ ((create_anaglyph_image testImg 0).pix 2 1 = testImg.pix 2 1
        ∧ (create_anaglyph_image testImg 0).width = testImg.width
        ∧ (create_anaglyph_image testImg 0).height = testImg.height) :=
  ⟨by decide, c4_offset_zero_identity testImg 2 1 (by decide) (by decide)⟩

/-- Helper: whether a loop iteration of `process_directory` invokes the
Converter, and with which paths and offset, does not depend on the file
system (only the recorded boolean result does). -/
theorem process_entry_call_fs_independent (fs fs' : FS) (d o : String)
    (off : Int) (e : DirEntry) :
    (match process_entry fs d o off e with
      | .call c _ => some c
      | .skip _ => none)
    = (match process_entry fs' d o off e with
      | .call c _ => some c
      | .skip _ => none) := by
  unfold process_entry
  by_cases h : (splitext (lower e.name)).2 ∈ allowed_ext
  · simp only [if_pos h]
  · simp only [if_neg h]

/-- C6: a completed run of the entry point exits 1 exactly when fewer
than two positional arguments were given, or when the offset argument
parsed (or was absent) and the input path is a directory while the
output path is not; every other completed run exits 0; and the exit code
never depends on the file system, so failed conversions leave it 0. -/
theorem c6_exit_codes (env : Env) (argv : List String) :
    ((main_run env argv).1 = some 1 ↔
      (argv.length < 3
        ∨ ((argv.length > 3 → python_int (argv.getD 3 "") ≠ none)
            ∧ env.isDir (argv.getD 1 "") = true
            ∧ env.isDir (argv.getD 2 "") = false)))
    ∧ (∀ c, (main_run env argv).1 = some c → c = 0 ∨ c = 1)
    ∧ (∀ fs2, (main_run { fs := fs2, isDir := env.isDir, listdir := env.listdir } argv).1
          = (main_run env argv).1) := by
  refine ⟨?_, ?_, ?_⟩
  · unfold main_run
    simp only [List.getD_eq_getElem?_getD]
    by_cases h3 : argv.length < 3
    · simp [h3]
    · simp only [if_neg h3]
      by_cases h4 : argv.length > 3
      · simp only [if_pos h4]
        cases hp : python_int (argv[3]?.getD "") with
        | none => simp [h3, h4]
        | some off =>
            by_cases hdin : env.isDir (argv[1]?.getD "") = true
            · by_cases hdout : env.isDir (argv[2]?.getD "") = true
              · simp [hdin, hdout, h3, h4]
              · rw [Bool.not_eq_true] at hdout
                simp [hdin, hdout, h3, h4]
            · rw [Bool.not_eq_true] at hdin
              simp [hdin, h3, h4]
      · simp only [if_neg h4]
        by_cases hdin : env.isDir (argv[1]?.getD "") = true
        · by_cases hdout : env.isDir (argv[2]?.getD "") = true
          · simp [hdin, hdout, h3, h4]
          · rw [Bool.not_eq_true] at hdout
            simp [hdin, hdout, h3, h4]
        · rw [Bool.not_eq_true] at hdin
          simp [hdin, h3, h4]
  · intro c hc
    unfold main_run at hc
    simp only [List.getD_eq_getElem?_getD] at hc
    by_cases h3 : argv.length < 3
    · rw [if_pos h3] at hc
      simp at hc
      omega
    · rw [if_neg h3] at hc
      cases hp : (if argv.length > 3 then python_int (argv[3]?.getD "") else some 10) with
      | none => rw [hp] at hc; simp at hc
      | some off =>
          rw [hp] at hc
          by_cases hdin : env.isDir (argv[1]?.getD "") = true
          · by_cases hdout : env.isDir (argv[2]?.getD "") = true
            · simp [hdin, hdout] at hc
              omega
            · rw [Bool.not_eq_true] at hdout
              simp [hdin, hdout] at hc
              omega
          · rw [Bool.not_eq_true] at hdin
            simp [hdin] at hc
            omega
  · intro fs2
    unfold main_run
    simp only [List.getD_eq_getElem?_getD]
    by_cases h3 : argv.length < 3
    · simp [h3]
    · simp only [if_neg h3]
      cases hp : (if argv.length > 3 then python_int (argv[3]?.getD "") else some 10) with
      | none => rfl
      | some off =>
          by_cases hdin : env.isDir (argv[1]?.getD "") = true
          · by_cases hdout : env.isDir (argv[2]?.getD "") = true
            · simp [hdin, hdout]
            · rw [Bool.not_eq_true] at hdout
              simp [hdin, hdout]
          · rw [Bool.not_eq_true] at hdin
            simp [hdin]

/-- Witness for C6: with no positional arguments the run exits 1. -/
theorem c6_witness : (main_run fileEnv ["prog"]).1 = some 1 :=
  ((c6_exit_codes fileEnv ["prog"]).1).mpr (Or.inl (by decide))

/-- C7: a directory entry is classified by its lower-cased extension
against the allowed set; a matching entry yields one Converter call on
the joined input path and the output name `base_anaglyph<ext>` built
from the original-case split, with the shared offset; a non-matching
entry yields only a skip notice.  On the spec's batch example the calls
are exactly `photo_anaglyph.JPG` and `pic_anaglyph.png`. -/
theorem c7_classification_and_naming :
    (∀ (fs : FS) (input_dir output_dir : String) (offset : Int)
        (name : String) (b : Bool),
      process_directory fs input_dir output_dir offset [{ name := name, isDir := b }]
        = [if (splitext (lower name)).2 ∈ allowed_ext then
             BatchEvent.call
               { input := path_join input_dir name
                 output := path_join output_dir
                     ((splitext name).1 ++ "_anaglyph" ++ (splitext name).2)
                 offset := offset }
               (create_anaglyph fs (path_join input_dir name)
                 (path_join output_dir
                   ((splitext name).1 ++ "_anaglyph" ++ (splitext name).2)) offset).ok
           else BatchEvent.skip ("Skipping non-image file: " ++ name)])
    ∧ batch_calls (process_directory okFS "in" "out" 10
        [{ name := "photo.JPG", isDir := false },
         { name := "notes.txt", isDir := false },
         { name := "pic.png", isDir := false }])
      = [{ input := "in/photo.JPG", output := "out/photo_anaglyph.JPG", offset := 10 },
         { input := "in/pic.png", output := "out/pic_anaglyph.png", offset := 10 }] :=
  ⟨fun _ _ _ _ _ _ => rfl, by decide⟩

/-- C8 counterexample: a subdirectory entry named `sub.jpg` IS passed to
the Converter (the sweep records a Converter call for it), refuting
"never passed to the Converter, regardless of their name". -/
theorem c8_counterexample :
    batch_calls (process_directory failFS "in" "out" 10
        [{ name := "sub.jpg", isDir := true }])
      = [{ input := "in/sub.jpg", output := "out/sub_anaglyph.jpg", offset := 10 }] := by
  decide

/-- C8 amended: subdirectories are never recursed into and their kind is
never consulted — an entry is handled identically whether it is a file
or a subdirectory — so a subdirectory whose name lacks an allowed image
extension produces only a skip notice, but one whose name carries an
allowed extension is passed to the Converter like any file. -/
theorem c8_no_recursion_extension_only (fs : FS) (input_dir output_dir : String)
    (offset : Int) (name : String) (b b' : Bool) :
    process_directory fs input_dir output_dir offset [{ name := name, isDir := b }]
      = process_directory fs input_dir output_dir offset [{ name := name, isDir := b' }]
    ∧ ((splitext (lower name)).2 ∉ allowed_ext →
        process_directory fs input_dir output_dir offset [{ name := name, isDir := b }]
          = [BatchEvent.skip ("Skipping non-image file: " ++ name)]) := by
  refine ⟨rfl, fun h => ?_⟩
  simp only [process_directory, List.map_cons, List.map_nil, process_entry]
  rw [if_neg h]

/-- Witness for C8's amended statement on the non-image entry
`notes.txt` marked as a subdirectory. -/
theorem c8_witness :
    ((splitext (lower "notes.txt")).2 ∉ allowed_ext)
    ∧ process_directory failFS "in" "out" 10 [{ name := "notes.txt", isDir := true }]
        = [BatchEvent.skip ("Skipping non-image file: " ++ "notes.txt")] :=
  ⟨by decide,
   (c8_no_recursion_extension_only failFS "in" "out" 10 "notes.txt" true false).2
     (by decide)⟩

/-- C9: the sweep never halts on a per-file failure: the sequence of
Converter invocations is the same under any two file systems (however
many loads or saves fail), and the sweep produces exactly one event per
directory entry; the Python function returns `None`, so the event trace
is its whole observable behavior and no value aggregates successes. -/
theorem c9_failures_never_halt (fs fs' : FS) (input_dir output_dir : String)
    (offset : Int) (entries : List DirEntry) :
    batch_calls (process_directory fs input_dir output_dir offset entries)
      = batch_calls (process_directory fs' input_dir output_dir offset entries)
    ∧ (process_directory fs input_dir output_dir offset entries).length
        = entries.length := by
  refine ⟨?_, by simp [process_directory]⟩
  induction entries with
  | nil => rfl
  | cons e es ih =>
      simp only [process_directory, batch_calls, List.map_cons, List.filterMap_cons] at ih ⊢
      rw [process_entry_call_fs_independent fs fs' input_dir output_dir offset e, ih]

/-- C10: when a fourth argument is present and is not a valid integer
literal, the run raises an unhandled `ValueError` during argument
parsing: no exit code, no conversion, no directory dispatch. -/
theorem c10_invalid_offset (env : Env) (argv : List String)
    (h4 : argv.length ≥ 4) (hp : python_int (argv.getD 3 "") = none) :
    main_run env argv = (none, []) := by
  unfold main_run
  rw [if_neg (by omega)]
  simp only [if_pos (show argv.length > 3 by omega), hp]

/-- Witness for C10 on the argument vector `prog a b x`. -/
theorem c10_witness :
    ((["prog", "a", "b", "x"] : List String).length ≥ 4
      ∧ python_int ((["prog", "a", "b", "x"] : List String).getD 3 "") = none)
    ∧ main_run fileEnv ["prog", "a", "b", "x"] = (none, []) :=
  ⟨⟨by decide, by decide⟩,
   c10_invalid_offset fileEnv ["prog", "a", "b", "x"] (by decide) (by decide)⟩
